import Mathlib

/-!
# Verification of the ArquiSoft II search/indexing pipeline

A shallow embedding, in Lean 4, of the search subsystem of the repository
(`search-api`): the Solr query translator, the query/property validators, the
search service façade (index / update / delete / search with a two-level
cache), the RabbitMQ event consumer, and the upstream property fetcher.

Conventions of the embedding:
* Go strings are modelled as `String` / `List Char`; the inputs exercised
  here are ASCII, where Go's byte-wise `strings.ReplaceAll` and the
  character-wise model agree.
* Go `float64` values that the code only compares and copies are modelled
  as `ℚ`; Go `int` as `Int`; Go `uint` as `Nat`.
* `time.Time` is modelled as a `Nat` number of seconds, with `0` playing the
  role of the zero timestamp (`IsZero`).
* Outbound Solr traffic is modelled as a trace of structured engine
  operations (`SolrOp`); the engine's per-operation success is an oracle
  `eng : SolrOp → Bool`.
* The MD5-hex step of the cache key is an injective encoding of the
  canonical key string, so the key is modelled as the canonical string
  itself, `"search:"`-prefixed.
-/

/-- `domain.Property` (search-api/domain/property.go). -/
structure Property where
  id : String
  title : String
  description : String
  city : String
  country : String
  pricePerNight : ℚ
  bedrooms : Int
  bathrooms : Int
  maxGuests : Int
  images : List String
  ownerID : Nat
  available : Bool
  createdAt : Nat
deriving Repr, DecidableEq

/-- `dto.SearchRequest` (search-api/dto, src/unnamed/part_006). -/
structure SearchRequest where
  query : String
  city : String
  country : String
  minPrice : ℚ
  maxPrice : ℚ
  bedrooms : Int
  bathrooms : Int
  minGuests : Int
  page : Int
  pageSize : Int
  sortBy : String
  sortOrder : String
deriving Repr, DecidableEq

/-- The reserved characters escaped by `escapeSolrQuery`
(solr_repository.go, `specialChars`), in the source's order: the backslash
appears second to last, after every character whose escape inserts one. -/
def specialChars : List Char :=
  ['+', '-', '&', '|', '!', '(', ')', '\x7b', '\x7d', '[', ']', '^', '"',
   '~', '*', '?', ':', '\\', '/']

/-- One round of Go's `strings.ReplaceAll(s, c, "\\"+c)` for a single
character `c`: every occurrence of `c` is replaced by a backslash followed
by `c`. -/
def replaceEsc (c : Char) : List Char → List Char
  | [] => []
  | x :: xs => (if x = c then ['\\', c] else [x]) ++ replaceEsc c xs

/-- `escapeSolrQuery` (solr_repository.go lines 512–521): a left fold of
`strings.ReplaceAll(escaped, char, "\\"+char)` over `specialChars`. -/
def escapeSolrQuery (q : List Char) : List Char :=
  specialChars.foldl (fun acc c => replaceEsc c acc) q

/-- The escape function as the specification describes it: each reserved
character prefixed by exactly one backslash, all other characters preserved
literally and in order. Written from the spec's words, for comparison with
`escapeSolrQuery`. -/
def escapeSpecClaim (q : List Char) : List Char :=
  match q with
  | [] => []
  | x :: xs => (if x ∈ specialChars then ['\\', x] else [x]) ++ escapeSpecClaim xs

/-- The main `q` parameter of the translated Solr query
(`solrRepository.Search`): wildcarded text search over title/city/country
when `query` is non-empty, else match-all (`*:*`). -/
inductive SolrQueryMain where
  | matchAll
  | textSearch (escaped : List Char)
deriving Repr, DecidableEq

/-- One `fq` filter clause of the translated Solr query, in structured form
(the Go code renders each as a format string; the payloads here are the
values interpolated into it). -/
inductive SolrFilter where
  | city (escaped : List Char)
  | country (escaped : List Char)
  | priceRange (lo hi : ℚ)
  | bedrooms (n : Int)
  | bathrooms (n : Int)
  | minGuests (n : Int)
deriving Repr, DecidableEq

/-- The `q` parameter exactly as `solrRepository.Search` builds it
(solr_repository.go lines 86–96). -/
def solrMainQuery (r : SearchRequest) : SolrQueryMain :=
  if r.query = "" then SolrQueryMain.matchAll
  else SolrQueryMain.textSearch (escapeSolrQuery r.query.data)

/-- The `fq` clauses exactly as `solrRepository.Search` appends them
(solr_repository.go lines 98–139): city, country, price range (sentinel
999999 when `maxPrice == 0`), bedrooms, bathrooms, minGuests — each clause
guarded by its emptiness/positivity test. -/
def solrFilters (r : SearchRequest) : List SolrFilter :=
  (if r.city ≠ "" then [SolrFilter.city (escapeSolrQuery r.city.data)] else []) ++
  (if r.country ≠ "" then [SolrFilter.country (escapeSolrQuery r.country.data)] else []) ++
  (if r.minPrice > 0 ∨ r.maxPrice > 0 then
    [SolrFilter.priceRange r.minPrice (if r.maxPrice = 0 then 999999 else r.maxPrice)]
   else []) ++
  (if r.bedrooms > 0 then [SolrFilter.bedrooms r.bedrooms] else []) ++
  (if r.bathrooms > 0 then [SolrFilter.bathrooms r.bathrooms] else []) ++
  (if r.minGuests > 0 then [SolrFilter.minGuests r.minGuests] else [])

/-- Effective page used for pagination (solr_repository.go lines 142–145):
`page` coerced to at least 1. -/
def effPage (r : SearchRequest) : Int :=
  if r.page < 1 then 1 else r.page

/-- Effective page size (solr_repository.go lines 146–149): `pageSize`
replaced by 10 when below 1. -/
def effPageSize (r : SearchRequest) : Int :=
  if r.pageSize < 1 then 10 else r.pageSize

/-- `start` parameter of the translated query (solr_repository.go line
150). -/
def solrStart (r : SearchRequest) : Int :=
  (effPage r - 1) * effPageSize r

/-- `rows` parameter of the translated query (solr_repository.go line
152). -/
def solrRows (r : SearchRequest) : Int :=
  effPageSize r

/-- The effective sort order (solr_repository.go lines 157–163): empty
becomes `asc`, anything other than `asc`/`desc` becomes `asc`. -/
def effSortOrder (o : String) : String :=
  let o1 := if o = "" then "asc" else o
  if o1 ≠ "asc" ∧ o1 ≠ "desc" then "asc" else o1

/-- The `sort` parameter of the translated query (solr_repository.go lines
154–165): emitted only when `sortBy` is non-empty, as the verbatim
`sortBy` value followed by the effective order. -/
def solrSort (r : SearchRequest) : Option String :=
  if r.sortBy = "" then none
  else some (r.sortBy ++ " " ++ effSortOrder r.sortOrder)

/-- The whole translated Solr query of `solrRepository.Search`. -/
structure SolrQuery where
  q : SolrQueryMain
  fq : List SolrFilter
  start : Int
  rows : Int
  sort : Option String
deriving Repr, DecidableEq

/-- The query translation of `solrRepository.Search`
(solr_repository.go lines 78–168) as a pure function of the request. -/
def translateSearch (r : SearchRequest) : SolrQuery :=
  { q := solrMainQuery r
    fq := solrFilters r
    start := solrStart r
    rows := solrRows r
    sort := solrSort r }

/-- The sort-field whitelist the specification documents
(`price`, `created_at`, `bedrooms`): only these values are permitted to
reach the engine. Written from the spec's words, for comparison with
`solrSort`. -/
def permittedSortFields : List String :=
  ["price", "created_at", "bedrooms"]

/-- `searchService.validateProperty` (services, search_response.go lines
293–305). -/
def validateProperty (p : Property) : Except String Unit :=
  if p.id = "" then Except.error "ID de propiedad no puede estar vacío"
  else if p.title = "" then Except.error "title no puede estar vacío"
  else if p.pricePerNight < 0 then Except.error "pricePerNight no puede ser negativo"
  else Except.ok ()

/-- `searchService.validateSearchRequest` (services, search_response.go
lines 261–291). The Go function mutates the request in place (page and
pageSize coercion) before validating; the model returns the normalized
request on success. -/
def svcValidateSearchRequest (r : SearchRequest) : Except String SearchRequest :=
  let r1 : SearchRequest := { r with page := if r.page < 1 then 1 else r.page }
  let r2 : SearchRequest := { r1 with pageSize := if r1.pageSize < 1 then 10 else r1.pageSize }
  if r2.pageSize > 100 then Except.error "pageSize no puede ser mayor a 100"
  else if r2.minPrice < 0 then Except.error "minPrice no puede ser negativo"
  else if r2.maxPrice < 0 then Except.error "maxPrice no puede ser negativo"
  else if r2.minPrice > 0 ∧ r2.maxPrice > 0 ∧ r2.minPrice > r2.maxPrice then
    Except.error "minPrice no puede ser mayor que maxPrice"
  else if r2.sortOrder ≠ "" ∧ r2.sortOrder ≠ "asc" ∧ r2.sortOrder ≠ "desc" then
    Except.error "sortOrder debe ser asc o desc"
  else Except.ok r2

/-- `validateSearchRequest` of the HTTP controller
(search_controller.go lines 168–200): same checks, but page below 1 and
pageSize below 1 are rejected instead of coerced. -/
def ctrlValidateSearchRequest (r : SearchRequest) : Except String Unit :=
  if r.page < 1 then Except.error "page debe ser mayor o igual a 1"
  else if r.pageSize ≤ 0 then Except.error "pageSize debe ser mayor a 0"
  else if r.pageSize > 100 then Except.error "pageSize no puede ser mayor a 100"
  else if r.minPrice < 0 then Except.error "minPrice no puede ser negativo"
  else if r.maxPrice < 0 then Except.error "maxPrice no puede ser negativo"
  else if r.minPrice > 0 ∧ r.maxPrice > 0 ∧ r.minPrice > r.maxPrice then
    Except.error "minPrice no puede ser mayor que maxPrice"
  else if r.sortOrder ≠ "" ∧ r.sortOrder ≠ "asc" ∧ r.sortOrder ≠ "desc" then
    Except.error "sortOrder debe ser asc o desc"
  else Except.ok ()

/-- `SolrProperty` (solr_repository.go lines 61–75): the engine document
schema written on index; the price field is serialized as `price`. -/
structure SolrProperty where
  id : String
  title : String
  description : String
  city : String
  country : String
  price : ℚ
  bedrooms : Int
  bathrooms : Int
  maxGuests : Int
  images : List String
  ownerID : Nat
  available : Bool
  createdAt : Nat
deriving Repr, DecidableEq

/-- `solrRepository.propertyToSolr` (solr_repository.go lines 345–384): a
field-by-field copy, substituting the current time when `createdAt` is the
zero timestamp. -/
def propertyToSolr (now : Nat) (p : Property) : SolrProperty :=
  { id := p.id
    title := p.title
    description := p.description
    city := p.city
    country := p.country
    price := p.pricePerNight
    bedrooms := p.bedrooms
    bathrooms := p.bathrooms
    maxGuests := p.maxGuests
    images := p.images
    ownerID := p.ownerID
    available := p.available
    createdAt := if p.createdAt = 0 then now else p.createdAt }

/-- One outbound mutation request to the Solr engine: a document add
(`POST /update/json/docs`), a delete-by-id, or a commit
(`POST /update`). -/
inductive SolrOp where
  | addDoc (doc : SolrProperty)
  | deleteById (id : String)
  | commit
deriving Repr, DecidableEq

/-- `solrRepository.IndexProperty` (solr_repository.go lines 216–263): add
the mapped document, then commit; each step's HTTP success is the oracle
`eng`. The second component is the trace of engine requests actually
issued. -/
def repoIndexProperty (eng : SolrOp → Bool) (now : Nat) (p : Property) :
    Except String Unit × List SolrOp :=
  let doc := propertyToSolr now p
  if eng (SolrOp.addDoc doc) then
    if eng SolrOp.commit then (Except.ok (), [SolrOp.addDoc doc, SolrOp.commit])
    else (Except.error "error en commit de Solr", [SolrOp.addDoc doc, SolrOp.commit])
  else (Except.error "error indexando propiedad en Solr", [SolrOp.addDoc doc])

/-- `solrRepository.UpdateProperty` (solr_repository.go lines 265–269):
delegates to `IndexProperty` — update-as-replace. -/
def repoUpdateProperty (eng : SolrOp → Bool) (now : Nat) (p : Property) :
    Except String Unit × List SolrOp :=
  repoIndexProperty eng now p

/-- `solrRepository.DeleteProperty` (solr_repository.go lines 272–311):
delete-by-id, then commit. -/
def repoDeleteProperty (eng : SolrOp → Bool) (pid : String) :
    Except String Unit × List SolrOp :=
  if eng (SolrOp.deleteById pid) then
    if eng SolrOp.commit then (Except.ok (), [SolrOp.deleteById pid, SolrOp.commit])
    else (Except.error "error en commit de Solr", [SolrOp.deleteById pid, SolrOp.commit])
  else (Except.error "error eliminando propiedad en Solr", [SolrOp.deleteById pid])

/-- The engine's committed index, as a document store keyed by id: applying
an `addDoc` overwrites the document with that id (Solr update-as-replace),
`deleteById` removes it, `commit` publishes (a no-op on this abstract
committed view). -/
def applySolrOp (st : List (String × SolrProperty)) : SolrOp → List (String × SolrProperty)
  | SolrOp.addDoc doc => (doc.id, doc) :: st.filter (fun kv => kv.1 ≠ doc.id)
  | SolrOp.deleteById pid => st.filter (fun kv => kv.1 ≠ pid)
  | SolrOp.commit => st

/-- Apply a trace of engine operations in order. -/
def applySolrOps (st : List (String × SolrProperty)) (ops : List SolrOp) :
    List (String × SolrProperty) :=
  ops.foldl applySolrOp st

/-- One cached query page (`cacheData` in the cache repository plus its
expiry instant, seconds). -/
structure CacheEntry where
  properties : List Property
  total : Int
  expiresAt : Nat
deriving Repr, DecidableEq

/-- The two-level cache state: the in-process ccache level and the
Memcached level, each a key-value store with per-entry expiry. -/
structure CacheState where
  localEntries : List (String × CacheEntry)
  memcached : List (String × CacheEntry)
deriving Repr, DecidableEq

/-- Store (overwrite) a key in one cache level. -/
def setKey (k : String) (v : CacheEntry) (l : List (String × CacheEntry)) :
    List (String × CacheEntry) :=
  (k, v) :: l.filter (fun kv => kv.1 ≠ k)

/-- Look a key up in one cache level, treating an expired entry as
absent. -/
def lookupFresh (l : List (String × CacheEntry)) (now : Nat) (k : String) :
    Option CacheEntry :=
  match l.lookup k with
  | some e => if now < e.expiresAt then some e else none
  | none => none

/-- `cacheRepository.Get` (src/unnamed/part_004 lines 492–524): local level
first; on local miss try Memcached, promoting a hit into the local level
with a 5-minute (300 s) TTL. Returns the hit (if any) and the possibly
promoted cache state. -/
def cacheGet (st : CacheState) (now : Nat) (k : String) :
    Option CacheEntry × CacheState :=
  match lookupFresh st.localEntries now k with
  | some e => (some e, st)
  | none =>
    match lookupFresh st.memcached now k with
    | some e =>
      (some e,
       { st with localEntries :=
           setKey k { e with expiresAt := now + 300 } st.localEntries })
    | none => (none, st)

/-- `cacheRepository.Set` (src/unnamed/part_004 lines 529–565): write
through to both levels; local TTL fixed at 5 minutes (300 s), Memcached TTL
the given `ttl` raised to at least 15 minutes (900 s). -/
def cacheSet (st : CacheState) (now : Nat) (k : String)
    (props : List Property) (total : Int) (ttl : Nat) : CacheState :=
  { localEntries := setKey k ⟨props, total, now + 300⟩ st.localEntries
    memcached := setKey k ⟨props, total, now + max ttl 900⟩ st.memcached }

/-- Exact decimal-free rendering of a rational for the cache key (stands
in for Go's `%.2f`). -/
def ratKeyStr (q : ℚ) : String :=
  Int.repr q.num ++ "/" ++ Nat.repr q.den

/-- `searchService.generateCacheKey` (services, search_response.go lines
307–348): the canonical `|`-separated key string over the normalized
request, `"search:"`-prefixed. The Go code additionally MD5-hashes the
canonical string and hex-encodes it; that step is an injective fixed-length
encoding and is elided here, the key being the canonical string itself
(numbers rendered exactly, in place of Go's lossy `%.2f`). -/
def generateCacheKey (r : SearchRequest) : String :=
  let page := if r.page < 1 then 1 else r.page
  let pageSize := if r.pageSize < 1 then 10 else r.pageSize
  let sortBy := if r.sortBy = "" then "price_per_night" else r.sortBy
  let sortOrder := if r.sortOrder = "" then "asc" else r.sortOrder
  "search:" ++ "query:" ++ r.query ++ "|city:" ++ r.city ++
  "|country:" ++ r.country ++ "|minPrice:" ++ ratKeyStr r.minPrice ++
  "|maxPrice:" ++ ratKeyStr r.maxPrice ++ "|bedrooms:" ++ Int.repr r.bedrooms ++
  "|bathrooms:" ++ Int.repr r.bathrooms ++ "|minGuests:" ++ Int.repr r.minGuests ++
  "|page:" ++ Int.repr page ++ "|pageSize:" ++ Int.repr pageSize ++
  "|sortBy:" ++ sortBy ++ "|sortOrder:" ++ sortOrder

/-- `dto.SearchResponse` (search-api/dto/search_response.go lines 7–22). -/
structure SearchResponse where
  results : List Property
  totalResults : Int
  page : Int
  pageSize : Int
  totalPages : Int
deriving Repr, DecidableEq

/-- `searchService.buildSearchResponse` (services, search_response.go lines
350–374): `totalPages = ⌈total / pageSize⌉`, forced to 1 when the ceiling
is 0 but `total > 0`. -/
def buildSearchResponse (properties : List Property) (total : Int)
    (r : SearchRequest) : SearchResponse :=
  let page := if r.page < 1 then 1 else r.page
  let pageSize := if r.pageSize < 1 then 10 else r.pageSize
  let tp : Int := ⌈(total : ℚ) / (pageSize : ℚ)⌉
  let totalPages := if tp = 0 ∧ total > 0 then 1 else tp
  { results := properties
    totalResults := total
    page := page
    pageSize := pageSize
    totalPages := totalPages }

/-- `searchService.invalidateCache` (services, search_response.go lines
376–386): the body only writes log lines; no cache key is removed or
expired at either level, so on the cache state it is the identity. -/
def invalidateCache (st : CacheState) : CacheState :=
  st

/-- `searchService.Search` (services, search_response.go lines 97–129):
validate and normalize, compute the cache key, serve a cache hit as-is,
otherwise query Solr (the oracle `solr`), store the page with a 15-minute
TTL, and build the response. Returns the response (or error) and the
resulting cache state. -/
def svcSearch (solr : SearchRequest → Except String (List Property × Int))
    (st : CacheState) (now : Nat) (r : SearchRequest) :
    Except String SearchResponse × CacheState :=
  match svcValidateSearchRequest r with
  | Except.error e => (Except.error ("request inválido: " ++ e), st)
  | Except.ok rv =>
    let key := generateCacheKey rv
    match cacheGet st now key with
    | (some e, st1) => (Except.ok (buildSearchResponse e.properties e.total rv), st1)
    | (none, st1) =>
      match solr rv with
      | Except.error e => (Except.error ("error buscando en Solr: " ++ e), st1)
      | Except.ok (props, total) =>
        let st2 := cacheSet st1 now key props total 900
        (Except.ok (buildSearchResponse props total rv), st2)

/-- `searchService.IndexProperty` (services, search_response.go lines
131–151): validate, index through the Solr repository, then invalidate the
cache. Returns the result, the trace of engine requests issued, and the
resulting cache state. -/
def svcIndexProperty (eng : SolrOp → Bool) (now : Nat) (p : Property)
    (st : CacheState) : Except String Unit × List SolrOp × CacheState :=
  match validateProperty p with
  | Except.error e => (Except.error ("propiedad inválida: " ++ e), [], st)
  | Except.ok _ =>
    match repoIndexProperty eng now p with
    | (Except.error e, ops) =>
      (Except.error ("error indexando propiedad en Solr: " ++ e), ops, st)
    | (Except.ok _, ops) => (Except.ok (), ops, invalidateCache st)

/-- `searchService.UpdateProperty` (services, search_response.go lines
153–173): validate, update through the Solr repository, then invalidate
the cache. -/
def svcUpdateProperty (eng : SolrOp → Bool) (now : Nat) (p : Property)
    (st : CacheState) : Except String Unit × List SolrOp × CacheState :=
  match validateProperty p with
  | Except.error e => (Except.error ("propiedad inválida: " ++ e), [], st)
  | Except.ok _ =>
    match repoUpdateProperty eng now p with
    | (Except.error e, ops) =>
      (Except.error ("error actualizando propiedad en Solr: " ++ e), ops, st)
    | (Except.ok _, ops) => (Except.ok (), ops, invalidateCache st)

/-- `searchService.DeleteProperty` (services, search_response.go lines
175–195). -/
def svcDeleteProperty (eng : SolrOp → Bool) (pid : String)
    (st : CacheState) : Except String Unit × List SolrOp × CacheState :=
  if pid = "" then (Except.error "ID de propiedad no puede estar vacío", [], st)
  else
    match repoDeleteProperty eng pid with
    | (Except.error e, ops) =>
      (Except.error ("error eliminando propiedad de Solr: " ++ e), ops, st)
    | (Except.ok _, ops) => (Except.ok (), ops, invalidateCache st)

/-- `PropertyMessage` (consumers, src/unnamed/part_003 lines 209–215). -/
structure PropertyMessage where
  operation : String
  propertyId : String
deriving Repr, DecidableEq

/-- `RabbitMQConsumer.handleCreate` (src/unnamed/part_003 lines 378–394):
fetch the property from the upstream API (oracle `fetch`), then index it
through the service. -/
def handleCreate (fetch : String → Except String Property)
    (eng : SolrOp → Bool) (now : Nat) (pid : String) (st : CacheState) :
    Except String Unit × List SolrOp × CacheState :=
  match fetch pid with
  | Except.error e => (Except.error ("error obteniendo propiedad desde API: " ++ e), [], st)
  | Except.ok p =>
    match svcIndexProperty eng now p st with
    | (Except.error e, ops, st1) =>
      (Except.error ("error indexando propiedad en Solr: " ++ e), ops, st1)
    | (Except.ok _, ops, st1) => (Except.ok (), ops, st1)

/-- `RabbitMQConsumer.handleUpdate` (src/unnamed/part_003 lines 398–414):
fetch the property upstream, then update it through the service. -/
def handleUpdate (fetch : String → Except String Property)
    (eng : SolrOp → Bool) (now : Nat) (pid : String) (st : CacheState) :
    Except String Unit × List SolrOp × CacheState :=
  match fetch pid with
  | Except.error e => (Except.error ("error obteniendo propiedad desde API: " ++ e), [], st)
  | Except.ok p =>
    match svcUpdateProperty eng now p st with
    | (Except.error e, ops, st1) =>
      (Except.error ("error actualizando propiedad en Solr: " ++ e), ops, st1)
    | (Except.ok _, ops, st1) => (Except.ok (), ops, st1)

/-- `RabbitMQConsumer.handleDelete` (src/unnamed/part_003 lines 418–428). -/
def handleDelete (eng : SolrOp → Bool) (pid : String) (st : CacheState) :
    Except String Unit × List SolrOp × CacheState :=
  match svcDeleteProperty eng pid st with
  | (Except.error e, ops, st1) =>
    (Except.error ("error eliminando propiedad de Solr: " ++ e), ops, st1)
  | (Except.ok _, ops, st1) => (Except.ok (), ops, st1)

/-- The terminal broker outcome of one consumed message: negative
acknowledgement without requeue, acknowledgement of an unknown operation
(ignored), acknowledgement after a logged handler error, or
acknowledgement after success. -/
inductive MessageOutcome where
  | nackNoRequeue
  | ackUnknownOp
  | ackHandlerError
  | ackOk
deriving Repr, DecidableEq

/-- `RabbitMQConsumer.processMessage` (src/unnamed/part_003 lines 315–374).
`body` is the result of `json.Unmarshal` on the delivery body (`none` when
the JSON is malformed). The function is a single pass to exactly one
terminal outcome: unmarshal failure or an empty `operation`/`propertyId`
is nacked without requeue; an unknown operation is acked and ignored; a
handler error is acked (and logged); success is acked. -/
def processMessage (fetch : String → Except String Property)
    (eng : SolrOp → Bool) (now : Nat) (body : Option PropertyMessage)
    (st : CacheState) : MessageOutcome × List SolrOp × CacheState :=
  match body with
  | none => (MessageOutcome.nackNoRequeue, [], st)
  | some m =>
    if m.operation = "" then (MessageOutcome.nackNoRequeue, [], st)
    else if m.propertyId = "" then (MessageOutcome.nackNoRequeue, [], st)
    else if m.operation = "create" then
      match handleCreate fetch eng now m.propertyId st with
      | (Except.error _, ops, st1) => (MessageOutcome.ackHandlerError, ops, st1)
      | (Except.ok _, ops, st1) => (MessageOutcome.ackOk, ops, st1)
    else if m.operation = "update" then
      match handleUpdate fetch eng now m.propertyId st with
      | (Except.error _, ops, st1) => (MessageOutcome.ackHandlerError, ops, st1)
      | (Except.ok _, ops, st1) => (MessageOutcome.ackOk, ops, st1)
    else if m.operation = "delete" then
      match handleDelete eng m.propertyId st with
      | (Except.error _, ops, st1) => (MessageOutcome.ackHandlerError, ops, st1)
      | (Except.ok _, ops, st1) => (MessageOutcome.ackOk, ops, st1)
    else (MessageOutcome.ackUnknownOp, [], st)

/-- A JSON value, as decoded by Go's `encoding/json` into `interface\x7b\x7d`
(numbers always arrive as `float64`, modelled as `ℚ`). -/
inductive Json where
  | null
  | bool (b : Bool)
  | num (q : ℚ)
  | str (s : String)
  | arr (xs : List Json)
  | obj (fields : List (String × Json))

/-- Model of Go's RFC 3339 `time.Time` JSON decoding, restricted to the
`YYYY-MM-DDTHH:MM:SSZ` shape the repository writes: the fourteen digits,
read in order, as a single number — a monotone stand-in for the epoch
seconds. Malformed strings yield `none`. -/
def rfc3339ToNat (s : String) : Option Nat :=
  match s.data with
  | [y1, y2, y3, y4, '-', m1, m2, '-', d1, d2, 'T',
     h1, h2, ':', n1, n2, ':', s1, s2, 'Z'] =>
    let ds := [y1, y2, y3, y4, m1, m2, d1, d2, h1, h2, n1, n2, s1, s2]
    if ds.all Char.isDigit then
      some (ds.foldl (fun a c => a * 10 + (c.toNat - 48)) 0)
    else none
  | _ => none

/-- Go `json.Unmarshal` into a `string` field: a JSON string (null leaves
the zero value); any other shape is an unmarshal type error. -/
def decGoString : Json → Except String String
  | Json.str s => Except.ok s
  | Json.null => Except.ok ""
  | _ => Except.error "cannot unmarshal into field of type string"

/-- Go `json.Unmarshal` into a `bool` field. -/
def decGoBool : Json → Except String Bool
  | Json.bool b => Except.ok b
  | Json.null => Except.ok false
  | _ => Except.error "cannot unmarshal into field of type bool"

/-- Go `json.Unmarshal` into a `float64` field. -/
def decGoFloat : Json → Except String ℚ
  | Json.num q => Except.ok q
  | Json.null => Except.ok 0
  | _ => Except.error "cannot unmarshal into field of type float64"

/-- Go `json.Unmarshal` into an `int` field: the number must be an
integer. -/
def decGoInt : Json → Except String Int
  | Json.num q => if q.den = 1 then Except.ok q.num
    else Except.error "cannot unmarshal fractional number into field of type int"
  | Json.null => Except.ok 0
  | _ => Except.error "cannot unmarshal into field of type int"

/-- Go `json.Unmarshal` into a `uint` field: a non-negative integer. -/
def decGoUint : Json → Except String Nat
  | Json.num q => if q.den = 1 ∧ 0 ≤ q.num then Except.ok q.num.toNat
    else Except.error "cannot unmarshal into field of type uint"
  | Json.null => Except.ok 0
  | _ => Except.error "cannot unmarshal into field of type uint"

/-- Go `json.Unmarshal` into a `[]string` field. -/
def decGoStringList : Json → Except String (List String)
  | Json.arr xs =>
    xs.foldr
      (fun x acc =>
        match decGoString x, acc with
        | Except.ok s, Except.ok l => Except.ok (s :: l)
        | Except.error e, _ => Except.error e
        | _, Except.error e => Except.error e)
      (Except.ok [])
  | Json.null => Except.ok []
  | _ => Except.error "cannot unmarshal into field of type list of string"

/-- Go `json.Unmarshal` into a `time.Time` field: an RFC 3339 string. -/
def decGoTime : Json → Except String Nat
  | Json.str s =>
    match rfc3339ToNat s with
    | some t => Except.ok t
    | none => Except.error "cannot parse time"
  | Json.null => Except.ok 0
  | _ => Except.error "cannot unmarshal into field of type time"

/-- Decode one struct field: an absent or null key leaves the zero value
`dflt` without error, like Go `json.Unmarshal`; a present key must decode
with `dec`. -/
def decField (fields : List (String × Json)) (k : String)
    (dec : Json → Except String α) (dflt : α) : Except String α :=
  match fields.lookup k with
  | none => Except.ok dflt
  | some Json.null => Except.ok dflt
  | some v => dec v

/-- The zero `domain.Property` value. -/
def zeroProperty : Property :=
  { id := "", title := "", description := "", city := "", country := ""
    pricePerNight := 0, bedrooms := 0, bathrooms := 0, maxGuests := 0
    images := [], ownerID := 0, available := false, createdAt := 0 }

/-- Go `json.Unmarshal` of a JSON value into `domain.Property`, following
the struct's json tags (domain/property.go). Unknown keys are ignored;
missing keys leave zero values; a non-object top level fails. -/
def decodeProperty (j : Json) : Except String Property :=
  match j with
  | Json.obj fields => do
    let id ← decField fields "id" decGoString ""
    let title ← decField fields "title" decGoString ""
    let description ← decField fields "description" decGoString ""
    let city ← decField fields "city" decGoString ""
    let country ← decField fields "country" decGoString ""
    let pricePerNight ← decField fields "pricePerNight" decGoFloat 0
    let bedrooms ← decField fields "bedrooms" decGoInt 0
    let bathrooms ← decField fields "bathrooms" decGoInt 0
    let maxGuests ← decField fields "maxGuests" decGoInt 0
    let images ← decField fields "images" decGoStringList []
    let ownerID ← decField fields "ownerID" decGoUint 0
    let available ← decField fields "available" decGoBool false
    let createdAt ← decField fields "createdAt" decGoTime 0
    Except.ok { id, title, description, city, country, pricePerNight,
                bedrooms, bathrooms, maxGuests, images, ownerID, available,
                createdAt }
  | Json.null => Except.ok zeroProperty
  | _ => Except.error "cannot unmarshal into Property"

/-- Go `json.Unmarshal` of the upstream response body into the anonymous
envelope struct of `FetchPropertyFromAPI` (first version, services,
search_response.go lines 237–241):
`Success bool / Data domain.Property / Message string`, all fields
optional. A bare `Property` object therefore unmarshals successfully into
this struct — with `Success = false` and `Data` zero. -/
def decodeFetchEnvelope (j : Json) : Except String (Bool × Property × String) :=
  match j with
  | Json.obj fields => do
    let success ← decField fields "success" decGoBool false
    let data ← decField fields "data" decodeProperty zeroProperty
    let message ← decField fields "message" decGoString ""
    Except.ok (success, data, message)
  | Json.null => Except.ok (false, zeroProperty, "")
  | _ => Except.error "cannot unmarshal into response struct"

/-- The response-body handling of `searchService.FetchPropertyFromAPI`
(first version, services, search_response.go lines 235–259): try the
envelope struct; only if that unmarshal ERRORS, fall back to a direct
`Property` parse; on envelope success require `Success == true`. -/
def fetchPropertyDecode (body : Json) : Except String Property :=
  match decodeFetchEnvelope body with
  | Except.error e =>
    match decodeProperty body with
    | Except.error e2 =>
      Except.error ("error parseando respuesta JSON: " ++ e ++
        " (también intentó parseo directo: " ++ e2 ++ ")")
    | Except.ok p => Except.ok p
  | Except.ok (success, data, message) =>
    if success = false then Except.error ("la API reportó error: " ++ message)
    else Except.ok data

/-- The per-field string extractor of `solrRepository.solrDocToProperty`
(solr_repository.go lines 392–408): first element of a list if it is a
string, a bare string, otherwise the zero value. -/
def getStringValue (doc : List (String × Json)) (key : String) : String :=
  match doc.lookup key with
  | some (Json.str s) => s
  | some (Json.arr (Json.str s :: _)) => s
  | _ => ""

/-- The per-field number extractor (solr_repository.go lines 411–435);
the `int` branches of the Go code are dead, since `encoding/json` always
produces `float64` for JSON numbers. -/
def getFloatValue (doc : List (String × Json)) (key : String) : ℚ :=
  match doc.lookup key with
  | some (Json.num q) => q
  | some (Json.arr (Json.num q :: _)) => q
  | _ => 0

/-- The per-field boolean extractor (solr_repository.go lines 438–454). -/
def getBoolValue (doc : List (String × Json)) (key : String) : Bool :=
  match doc.lookup key with
  | some (Json.bool b) => b
  | some (Json.arr (Json.bool b :: _)) => b
  | _ => false

/-- Go's `int(f)` / `uint(f)` conversion from `float64`: truncation toward
zero. -/
def goTrunc (q : ℚ) : Int :=
  if 0 ≤ q then ⌊q⌋ else ⌈q⌉

/-- The `images` extraction of `solrDocToProperty` (solr_repository.go
lines 475–484): keep the string elements of a list value, else no
images. -/
def getImagesValue (doc : List (String × Json)) : List String :=
  match doc.lookup "images" with
  | some (Json.arr xs) =>
    xs.filterMap (fun j => match j with | Json.str s => some s | _ => none)
  | _ => []

/-- The `created_at` extraction of `solrDocToProperty` (solr_repository.go
lines 487–503): unwrap list-or-string, then parse; on failure the field
stays zero. -/
def getCreatedAtValue (doc : List (String × Json)) : Nat :=
  let s :=
    match doc.lookup "created_at" with
    | some (Json.str s) => s
    | some (Json.arr (Json.str s :: _)) => s
    | _ => ""
  if s ≠ "" then
    match rfc3339ToNat s with
    | some t => t
    | none => 0
  else 0

/-- `solrRepository.solrDocToProperty` (solr_repository.go lines 386–510):
every field extractor is total with a zero-value fallback, and the function
returns `nil` for the error unconditionally. -/
def solrDocToProperty (doc : List (String × Json)) : Except String Property :=
  Except.ok
    { id := getStringValue doc "id"
      title := getStringValue doc "title"
      description := getStringValue doc "description"
      city := getStringValue doc "city"
      country := getStringValue doc "country"
      pricePerNight := getFloatValue doc "price"
      bedrooms := goTrunc (getFloatValue doc "bedrooms")
      bathrooms := goTrunc (getFloatValue doc "bathrooms")
      maxGuests := goTrunc (getFloatValue doc "max_guests")
      images := getImagesValue doc
      ownerID := (goTrunc (getFloatValue doc "owner_id")).toNat
      available := getBoolValue doc "available"
      createdAt := getCreatedAtValue doc }

/-- The document-conversion loop of `solrRepository.Search`
(solr_repository.go lines 200–210): convert each returned document,
skipping any whose conversion errors. -/
def convertDocs (docs : List (List (String × Json))) : List Property :=
  docs.foldl
    (fun acc doc =>
      match solrDocToProperty doc with
      | Except.ok p => acc ++ [p]
      | Except.error _ => acc)
    []

/-- The raw `GET /search` query parameters, one string each;
`r.URL.Query().Get(name)` returns `""` for an absent parameter. -/
structure RawParams where
  query : String
  city : String
  country : String
  minPrice : String
  maxPrice : String
  bedrooms : String
  bathrooms : String
  minGuests : String
  page : String
  pageSize : String
  sortBy : String
  sortOrder : String
deriving Repr, DecidableEq

/-- A raw request with every parameter absent. -/
def noParams : RawParams :=
  { query := "", city := "", country := "", minPrice := "", maxPrice := ""
    bedrooms := "", bathrooms := "", minGuests := "", page := ""
    pageSize := "", sortBy := "", sortOrder := "" }

/-- An unsigned decimal-digit run as a number; `none` when empty or when a
non-digit occurs. -/
def parseDigits (l : List Char) : Option Nat :=
  if l ≠ [] ∧ l.all Char.isDigit then
    some (l.foldl (fun a c => a * 10 + (c.toNat - 48)) 0)
  else none

/-- Model of Go `strconv.Atoi`: optional sign, then decimal digits. -/
def goAtoi (s : String) : Option Int :=
  match s.data with
  | '+' :: rest => (parseDigits rest).map (fun n => (n : Int))
  | '-' :: rest => (parseDigits rest).map (fun n => -(n : Int))
  | l => (parseDigits l).map (fun n => (n : Int))

/-- An unsigned decimal literal with optional fractional part, as accepted
by Go `strconv.ParseFloat` (the exponent/hex/inf forms are outside the
inputs modelled here). -/
def parseUnsignedFloat (l : List Char) : Option ℚ :=
  match l.splitOn '.' with
  | [ip] => (parseDigits ip).map (fun n => (n : ℚ))
  | [ip, fp] =>
    if ip = [] ∧ fp = [] then none
    else if (ip.all Char.isDigit) ∧ (fp.all Char.isDigit) then
      some ((ip.foldl (fun a c => a * 10 + (c.toNat - 48)) 0 : ℚ) +
        (fp.foldl (fun a c => a * 10 + (c.toNat - 48)) 0 : ℚ) / ((10 : ℚ) ^ fp.length))
    else none
  | _ => none

/-- Model of Go `strconv.ParseFloat`. -/
def goParseFloat (s : String) : Option ℚ :=
  match s.data with
  | '+' :: rest => parseUnsignedFloat rest
  | '-' :: rest => (parseUnsignedFloat rest).map (fun q => -q)
  | l => parseUnsignedFloat l

/-- One float query parameter of `parseSearchRequest`: absent means 0,
present must parse. -/
def parseFloatParam (raw : String) (msg : String) : Except String ℚ :=
  if raw = "" then Except.ok 0
  else
    match goParseFloat raw with
    | some v => Except.ok v
    | none => Except.error msg

/-- One integer query parameter of `parseSearchRequest`: absent means the
default, present must parse. -/
def parseIntParam (raw : String) (dflt : Int) (msg : String) : Except String Int :=
  if raw = "" then Except.ok dflt
  else
    match goAtoi raw with
    | some v => Except.ok v
    | none => Except.error msg

/-- ASCII lowercasing, the relevant fragment of Go `strings.ToLower`. -/
def asciiLower (s : String) : String :=
  String.mk (s.data.map Char.toLower)

/-- `parseSearchRequest` (search_controller.go lines 70–166): strings pass
through; numbers parse or fail with 400; `page` defaults to 1, `pageSize`
to 10; `sortBy` defaults to `price_per_night` when the parameter is
absent; `sortOrder` is lowercased and defaults to `asc`. -/
def parseSearchRequest (p : RawParams) : Except String SearchRequest :=
  match parseFloatParam p.minPrice "minPrice debe ser un número válido" with
  | Except.error e => Except.error e
  | Except.ok minPrice =>
  match parseFloatParam p.maxPrice "maxPrice debe ser un número válido" with
  | Except.error e => Except.error e
  | Except.ok maxPrice =>
  match parseIntParam p.bedrooms 0 "bedrooms debe ser un número entero válido" with
  | Except.error e => Except.error e
  | Except.ok bedrooms =>
  match parseIntParam p.bathrooms 0 "bathrooms debe ser un número entero válido" with
  | Except.error e => Except.error e
  | Except.ok bathrooms =>
  match parseIntParam p.minGuests 0 "minGuests debe ser un número entero válido" with
  | Except.error e => Except.error e
  | Except.ok minGuests =>
  match parseIntParam p.page 1 "page debe ser un número entero válido" with
  | Except.error e => Except.error e
  | Except.ok page =>
  match parseIntParam p.pageSize 10 "pageSize debe ser un número entero válido" with
  | Except.error e => Except.error e
  | Except.ok pageSize =>
  Except.ok
    { query := p.query, city := p.city, country := p.country
      minPrice := minPrice, maxPrice := maxPrice, bedrooms := bedrooms
      bathrooms := bathrooms, minGuests := minGuests, page := page
      pageSize := pageSize
      sortBy := if p.sortBy = "" then "price_per_night" else p.sortBy
      sortOrder :=
        if asciiLower p.sortOrder = "" then "asc" else asciiLower p.sortOrder }

/-- The controller's decision for one `GET /search` request: a 400 error
response (written before the service is ever called), or the parsed and
validated request forwarded to `service.Search`. -/
inductive ControllerOutcome where
  | badRequest (msg : String)
  | forwarded (req : SearchRequest)
deriving Repr, DecidableEq

/-- `SearchController.Search` (search_controller.go lines 31–68) up to the
service call: parse, then validate; either failure returns HTTP 400 with a
JSON error body and never reaches the index. -/
def searchController (p : RawParams) : ControllerOutcome :=
  match parseSearchRequest p with
  | Except.error e => ControllerOutcome.badRequest ("Error parseando parámetros: " ++ e)
  | Except.ok req =>
    match ctrlValidateSearchRequest req with
    | Except.error e => ControllerOutcome.badRequest e
    | Except.ok _ => ControllerOutcome.forwarded req

/-- Success test for an `Except` result. -/
def isOkE : Except ε α → Bool
  | Except.ok _ => true
  | Except.error _ => false

/-- An engine oracle on which every Solr request succeeds. -/
def engAllOk : SolrOp → Bool :=
  fun _ => true

/-- An upstream oracle on which every fetch fails. -/
def fetchFail : String → Except String Property :=
  fun _ => Except.error "connection refused"

/-- The empty two-level cache. -/
def emptyCache : CacheState :=
  { localEntries := [], memcached := [] }

/-- A property indexed before the mutation of the C1 scenario. -/
def cexOldProp : Property :=
  { id := "p1", title := "Loft", description := "", city := "Cali"
    country := "Colombia", pricePerNight := 120, bedrooms := 1, bathrooms := 1
    maxGuests := 2, images := [], ownerID := 7, available := true, createdAt := 5 }

/-- A property newly indexed by the mutation of the C1 scenario; it matches
the query of `cexReq`. -/
def cexNewProp : Property :=
  { id := "p2", title := "Loft Nuevo", description := "", city := "Cali"
    country := "Colombia", pricePerNight := 200, bedrooms := 2, bathrooms := 1
    maxGuests := 4, images := [], ownerID := 7, available := true, createdAt := 6 }

/-- A plain, valid search request (match-all, first page). -/
def cexReq : SearchRequest :=
  { query := "", city := "", country := "", minPrice := 0, maxPrice := 0
    bedrooms := 0, bathrooms := 0, minGuests := 0, page := 1, pageSize := 10
    sortBy := "", sortOrder := "" }

/-- The Solr read oracle before the C1 mutation: one matching property. -/
def solrBefore : SearchRequest → Except String (List Property × Int) :=
  fun _ => Except.ok ([cexOldProp], 1)

/-- The Solr read oracle after the C1 mutation: the index now holds both
properties. -/
def solrAfter : SearchRequest → Except String (List Property × Int) :=
  fun _ => Except.ok ([cexOldProp, cexNewProp], 2)

/-- The cache state after the first (pre-mutation) search of the C1
scenario: it holds the pre-mutation page under the request's key. -/
def cacheAfterFirstSearch : CacheState :=
  (svcSearch solrBefore emptyCache 0 cexReq).2

/-- A property violating the indexing invariants: its id is empty. -/
def invalidProp : Property :=
  { zeroProperty with title := "Loft", pricePerNight := 100 }

/-- The upstream 200 body of the C7 scenario in the bare-`Property` shape:
a well-formed property with a non-empty id, not wrapped in an envelope. -/
def bareLoftBody : Json :=
  Json.obj [("id", Json.str "p1"), ("title", Json.str "Loft"),
            ("pricePerNight", Json.num 120)]

/-- The same upstream body in the `(data: Property)` envelope shape with
`success: true`. -/
def envelopeLoftBody : Json :=
  Json.obj [("success", Json.bool true), ("data", bareLoftBody)]

/-- The canonical property both C7 bodies describe. -/
def loftProperty : Property :=
  { zeroProperty with id := "p1", title := "Loft", pricePerNight := 120 }

/-- A search request whose `sortBy` is no documented sort field. -/
def cex5req : SearchRequest :=
  { cexReq with sortBy := "foo", sortOrder := "asc" }

/-- A search request sorting on a documented field. -/
def wit5req : SearchRequest :=
  { cexReq with sortBy := "price" }

/-- Raw `GET /search` parameters whose only supplied value is
`sortOrder=ASC` — uppercase, hence outside the literal set
(asc, desc). -/
def rawASC : RawParams :=
  { noParams with sortOrder := "ASC" }

/-- The request the controller builds from `noParams` (and equally from
`rawASC`, whose `ASC` is lowercased): every default filled in. -/
def parsedDefault : SearchRequest :=
  { query := "", city := "", country := "", minPrice := 0, maxPrice := 0
    bedrooms := 0, bathrooms := 0, minGuests := 0, page := 1, pageSize := 10
    sortBy := "price_per_night", sortOrder := "asc" }

/-- A validated request exercising the price, bedrooms and pagination
clauses of the query translation. -/
def wit8req : SearchRequest :=
  { query := "", city := "Bogota", country := "", minPrice := 50, maxPrice := 150
    bedrooms := 2, bathrooms := 0, minGuests := 0, page := 2, pageSize := 5
    sortBy := "price", sortOrder := "asc" }

/-- A well-formed create message. -/
def wit4msg : PropertyMessage :=
  { operation := "create", propertyId := "p1" }

/-- The translation facts claim C8 asserts of one request: each numeric
filter clause is emitted iff its value is positive and carries exactly that
value (price with the 999999 sentinel when no maximum is set), and
pagination is `start = (page-1)·pageSize`, `rows = pageSize` with the page
coerced to at least 1. -/
def claim8Prop (r : SearchRequest) : Prop :=
  ((∃ lo hi, SolrFilter.priceRange lo hi ∈ (translateSearch r).fq) ↔
    (0 < r.minPrice ∨ 0 < r.maxPrice)) ∧
  (∀ lo hi, SolrFilter.priceRange lo hi ∈ (translateSearch r).fq →
    lo = r.minPrice ∧ hi = (if 0 < r.maxPrice then r.maxPrice else 999999)) ∧
  ((∃ n, SolrFilter.bedrooms n ∈ (translateSearch r).fq) ↔ 0 < r.bedrooms) ∧
  (∀ n, SolrFilter.bedrooms n ∈ (translateSearch r).fq → n = r.bedrooms) ∧
  ((∃ n, SolrFilter.bathrooms n ∈ (translateSearch r).fq) ↔ 0 < r.bathrooms) ∧
  (∀ n, SolrFilter.bathrooms n ∈ (translateSearch r).fq → n = r.bathrooms) ∧
  ((∃ n, SolrFilter.minGuests n ∈ (translateSearch r).fq) ↔ 0 < r.minGuests) ∧
  (∀ n, SolrFilter.minGuests n ∈ (translateSearch r).fq → n = r.minGuests) ∧
  (translateSearch r).start = (max r.page 1 - 1) * r.pageSize ∧
  (translateSearch r).rows = r.pageSize

/-! ## Helper lemmas -/

/-- A property violating any indexing invariant fails `validateProperty`. -/
theorem validateProperty_errors (p : Property)
    (h : p.id = "" ∨ p.title = "" ∨ p.pricePerNight < 0) :
    ∃ e, validateProperty p = Except.error e := by
  unfold validateProperty
  split_ifs with h1 h2 h3
  · exact ⟨_, rfl⟩
  · exact ⟨_, rfl⟩
  · exact ⟨_, rfl⟩
  · rcases h with h | h | h <;> simp_all

/-! ## Claim C2 -/

/-- Claim C2: for every property with an empty id, an empty title, or a
negative price per night, both `IndexProperty` and `UpdateProperty` of the
search service return an error, issue no request to the Solr engine (the
request trace is empty, so any index state is unchanged), and leave the
cache untouched. -/
theorem claim2_invalid_property_rejected_before_engine
    (eng : SolrOp → Bool) (now : Nat) (p : Property) (st : CacheState)
    (h : p.id = "" ∨ p.title = "" ∨ p.pricePerNight < 0) :
    (∃ e, svcIndexProperty eng now p st = (Except.error e, [], st)) ∧
    (∃ e, svcUpdateProperty eng now p st = (Except.error e, [], st)) ∧
    (∀ idx, applySolrOps idx (svcIndexProperty eng now p st).2.1 = idx) ∧
    (∀ idx, applySolrOps idx (svcUpdateProperty eng now p st).2.1 = idx) := by
  obtain ⟨e, he⟩ := validateProperty_errors p h
  refine ⟨⟨"propiedad inválida: " ++ e, ?_⟩, ⟨"propiedad inválida: " ++ e, ?_⟩, ?_, ?_⟩ <;>
    simp [svcIndexProperty, svcUpdateProperty, he, applySolrOps]

/-- Witness for C2 at a concrete invalid property (empty id). -/
theorem claim2_witness :
    (invalidProp.id = "" ∨ invalidProp.title = "" ∨ invalidProp.pricePerNight < 0) ∧
    ((∃ e, svcIndexProperty engAllOk 0 invalidProp emptyCache = (Except.error e, [], emptyCache)) ∧
     (∃ e, svcUpdateProperty engAllOk 0 invalidProp emptyCache = (Except.error e, [], emptyCache)) ∧
     (∀ idx, applySolrOps idx (svcIndexProperty engAllOk 0 invalidProp emptyCache).2.1 = idx) ∧
     (∀ idx, applySolrOps idx (svcUpdateProperty engAllOk 0 invalidProp emptyCache).2.1 = idx)) :=
  ⟨Or.inl rfl,
   claim2_invalid_property_rejected_before_engine engAllOk 0 invalidProp emptyCache (Or.inl rfl)⟩

/-! ## Claim C3 -/

/-- Claim C3: processing a create event and an update event for the same
property id are observationally indistinguishable on the index:
`UpdateProperty` of the Solr repository is the very same operation as
`IndexProperty` (update-as-replace), and the consumer's create and update
handlers — which both fetch the property upstream and then re-index it —
issue identical engine request traces, succeed or fail together, and lead
any index state to the same final state. -/
theorem claim3_create_update_indistinguishable
    (fetch : String → Except String Property) (eng : SolrOp → Bool) (now : Nat)
    (pid : String) (st : CacheState) (p : Property)
    (idx : List (String × SolrProperty)) :
    repoUpdateProperty eng now p = repoIndexProperty eng now p ∧
    (handleUpdate fetch eng now pid st).2 = (handleCreate fetch eng now pid st).2 ∧
    isOkE (handleUpdate fetch eng now pid st).1 =
      isOkE (handleCreate fetch eng now pid st).1 ∧
    applySolrOps idx (handleUpdate fetch eng now pid st).2.1 =
      applySolrOps idx (handleCreate fetch eng now pid st).2.1 := by
  have hsvc : ∀ q : Property,
      (svcUpdateProperty eng now q st).2 = (svcIndexProperty eng now q st).2 ∧
      isOkE (svcUpdateProperty eng now q st).1 = isOkE (svcIndexProperty eng now q st).1 := by
    intro q
    unfold svcUpdateProperty svcIndexProperty repoUpdateProperty
    cases validateProperty q with
    | error e => simp [isOkE]
    | ok u =>
      rcases h : repoIndexProperty eng now q with ⟨res, ops⟩
      cases res <;> simp [isOkE]
  have hmain :
      (handleUpdate fetch eng now pid st).2 = (handleCreate fetch eng now pid st).2 ∧
      isOkE (handleUpdate fetch eng now pid st).1 =
        isOkE (handleCreate fetch eng now pid st).1 := by
    cases hf : fetch pid with
    | error e => simp [handleUpdate, handleCreate, hf, isOkE]
    | ok q =>
      rcases hu : svcUpdateProperty eng now q st with ⟨ru, ou, su⟩
      rcases hi : svcIndexProperty eng now q st with ⟨ri, oi, si⟩
      have h2 := (hsvc q).1
      have h1 := (hsvc q).2
      rw [hu, hi] at h2 h1
      cases ru <;> cases ri <;>
        simp_all [handleUpdate, handleCreate, hf, isOkE]
  refine ⟨rfl, hmain.1, hmain.2, ?_⟩
  rw [show (handleUpdate fetch eng now pid st).2.1 =
        (handleCreate fetch eng now pid st).2.1 from congrArg Prod.fst hmain.1]

/-! ## Claim C4 -/

/-- Claim C4: every broker message reaches exactly one terminal outcome in
a single pass, with no in-process retry: malformed JSON or an empty
`operation`/`propertyId` is negatively acknowledged without requeue; an
operation other than create/update/delete is acknowledged and ignored; a
dispatched handler error is acknowledged (and logged); success is
acknowledged. -/
theorem claim4_message_single_pass_ack_policy
    (fetch : String → Except String Property) (eng : SolrOp → Bool) (now : Nat)
    (body : Option PropertyMessage) (st : CacheState) :
    (body = none →
      processMessage fetch eng now body st = (MessageOutcome.nackNoRequeue, [], st)) ∧
    (∀ m, body = some m → m.operation = "" ∨ m.propertyId = "" →
      processMessage fetch eng now body st = (MessageOutcome.nackNoRequeue, [], st)) ∧
    (∀ m, body = some m → m.operation ≠ "" → m.propertyId ≠ "" →
      m.operation ≠ "create" → m.operation ≠ "update" → m.operation ≠ "delete" →
      processMessage fetch eng now body st = (MessageOutcome.ackUnknownOp, [], st)) ∧
    (∀ m, body = some m → m.propertyId ≠ "" → m.operation = "create" →
      (processMessage fetch eng now body st).1 =
        (if isOkE (handleCreate fetch eng now m.propertyId st).1 then MessageOutcome.ackOk
         else MessageOutcome.ackHandlerError)) ∧
    (∀ m, body = some m → m.propertyId ≠ "" → m.operation = "update" →
      (processMessage fetch eng now body st).1 =
        (if isOkE (handleUpdate fetch eng now m.propertyId st).1 then MessageOutcome.ackOk
         else MessageOutcome.ackHandlerError)) ∧
    (∀ m, body = some m → m.propertyId ≠ "" → m.operation = "delete" →
      (processMessage fetch eng now body st).1 =
        (if isOkE (handleDelete eng m.propertyId st).1 then MessageOutcome.ackOk
         else MessageOutcome.ackHandlerError)) := by
  refine ⟨?_, ?_, ?_, ?_, ?_, ?_⟩
  · intro h; subst h; rfl
  · intro m h hor; subst h
    rcases hor with h1 | h1 <;> simp [processMessage, h1]
  · intro m h h1 h2 h3 h4 h5; subst h
    simp [processMessage, h1, h2, h3, h4, h5]
  · intro m h h2 h3; subst h
    have h1 : m.operation ≠ "" := by rw [h3]; decide
    rcases hc : handleCreate fetch eng now m.propertyId st with ⟨res, ops, st1⟩
    cases res <;> simp [processMessage, h1, h2, h3, hc, isOkE]
  · intro m h h2 h3; subst h
    have h1 : m.operation ≠ "" := by rw [h3]; decide
    have h4 : m.operation ≠ "create" := by rw [h3]; decide
    rcases hc : handleUpdate fetch eng now m.propertyId st with ⟨res, ops, st1⟩
    cases res <;> simp [processMessage, h1, h2, h3, h4, hc, isOkE]
  · intro m h h2 h3; subst h
    have h1 : m.operation ≠ "" := by rw [h3]; decide
    have h4 : m.operation ≠ "create" := by rw [h3]; decide
    have h5 : m.operation ≠ "update" := by rw [h3]; decide
    rcases hc : handleDelete eng m.propertyId st with ⟨res, ops, st1⟩
    cases res <;> simp [processMessage, h1, h2, h3, h4, h5, hc, isOkE]

/-- Witness for C4: a concrete create message is dispatched and acked
according to the handler result; a concrete malformed body is nacked. -/
theorem claim4_witness :
    (processMessage fetchFail engAllOk 0 none emptyCache =
      (MessageOutcome.nackNoRequeue, [], emptyCache)) ∧
    ((processMessage fetchFail engAllOk 0 (some wit4msg) emptyCache).1 =
      (if isOkE (handleCreate fetchFail engAllOk 0 wit4msg.propertyId emptyCache).1
       then MessageOutcome.ackOk else MessageOutcome.ackHandlerError)) :=
  ⟨(claim4_message_single_pass_ack_policy fetchFail engAllOk 0 none emptyCache).1 rfl,
   (claim4_message_single_pass_ack_policy fetchFail engAllOk 0 (some wit4msg)
      emptyCache).2.2.2.1 wit4msg rfl (by decide) rfl⟩

/-! ## Claim C10 -/

/-- The conversion loop of `Search` never drops a document, whatever the
accumulator. -/
theorem convertDocs_go_length (docs : List (List (String × Json))) :
    ∀ acc : List Property,
      (docs.foldl
        (fun acc doc =>
          match solrDocToProperty doc with
          | Except.ok p => acc ++ [p]
          | Except.error _ => acc)
        acc).length = acc.length + docs.length := by
  induction docs with
  | nil => intro acc; simp
  | cons d ds ih =>
    intro acc
    rw [List.foldl_cons, ih]
    have hd : (match solrDocToProperty d with
        | Except.ok p => acc ++ [p]
        | Except.error _ => acc).length = acc.length + 1 := by
      simp [solrDocToProperty]
    rw [hd]
    simp [List.length_cons]
    omega

/-- Claim C10: decoding an engine result document is total — for every
document map `solrDocToProperty` returns a `Property` and never an error,
each field being accepted as a scalar or as the first element of a list and
a missing or mistyped field yielding the zero value — so the per-document
skip-on-error branch of `Search` is unreachable and no engine document is
dropped from the results. -/
theorem claim10_doc_decode_total_no_drop :
    (∀ doc, ∃ p, solrDocToProperty doc = Except.ok p) ∧
    (∀ docs, (convertDocs docs).length = docs.length) ∧
    solrDocToProperty [("title", Json.str "Loft")] =
      solrDocToProperty [("title", Json.arr [Json.str "Loft"])] ∧
    getFloatValue [("price", Json.num 120)] "price" = 120 ∧
    getFloatValue [("price", Json.arr [Json.num 120])] "price" = 120 ∧
    getStringValue [] "title" = "" ∧
    getFloatValue [("price", Json.str "mistyped")] "price" = 0 := by
  refine ⟨fun doc => ⟨_, rfl⟩, fun docs => ?_, rfl, by decide, by decide,
    by decide, by decide⟩
  have h := convertDocs_go_length docs []
  simpa [convertDocs] using h

/-! ## Claim C8 -/

/-- Membership in a conditional singleton. -/
theorem mem_ite_singleton {c : Prop} [Decidable c] {a x : SolrFilter} :
    (a ∈ if c then [x] else []) ↔ c ∧ a = x := by
  split <;> simp_all

/-- Characterization of the emitted `fq` clauses. -/
theorem mem_solrFilters_iff (r : SearchRequest) (f : SolrFilter) :
    f ∈ solrFilters r ↔
      (r.city ≠ "" ∧ f = SolrFilter.city (escapeSolrQuery r.city.data)) ∨
      (r.country ≠ "" ∧ f = SolrFilter.country (escapeSolrQuery r.country.data)) ∨
      ((0 < r.minPrice ∨ 0 < r.maxPrice) ∧
        f = SolrFilter.priceRange r.minPrice
              (if r.maxPrice = 0 then 999999 else r.maxPrice)) ∨
      (0 < r.bedrooms ∧ f = SolrFilter.bedrooms r.bedrooms) ∨
      (0 < r.bathrooms ∧ f = SolrFilter.bathrooms r.bathrooms) ∨
      (0 < r.minGuests ∧ f = SolrFilter.minGuests r.minGuests) := by
  simp [solrFilters, List.mem_append, mem_ite_singleton]

/-- The coerced page is the maximum of the page and 1. -/
theorem effPage_eq_max (r : SearchRequest) : effPage r = max r.page 1 := by
  unfold effPage
  rcases lt_or_le r.page 1 with h | h
  · rw [if_pos h, max_eq_right h.le]
  · rw [if_neg (not_lt.mpr h), max_eq_left h]

/-- Claim C8: for a validated request (non-negative prices, page size at
least 1), the translated engine query carries a price-range clause iff
`minPrice > 0` or `maxPrice > 0` — its upper bound being `maxPrice` when
positive and the sentinel 999999 otherwise —, carries the bedrooms,
bathrooms and minGuests clauses each iff the value is positive (0 means
unset) and with exactly that value, and paginates with
`start = (page-1)·pageSize`, `rows = pageSize`, the page coerced to at
least 1. -/
theorem claim8_filters_pagination (r : SearchRequest)
    (hmin : 0 ≤ r.minPrice) (hmax : 0 ≤ r.maxPrice) (hps : 1 ≤ r.pageSize) :
    claim8Prop r := by
  have hfq : (translateSearch r).fq = solrFilters r := rfl
  have hsent : (if r.maxPrice = 0 then (999999 : ℚ) else r.maxPrice) =
      (if 0 < r.maxPrice then r.maxPrice else 999999) := by
    by_cases h0 : r.maxPrice = 0
    · simp [h0]
    · have hp : 0 < r.maxPrice := lt_of_le_of_ne hmax (Ne.symm h0)
      simp [h0, hp]
  refine ⟨?_, ?_, ?_, ?_, ?_, ?_, ?_, ?_, ?_, ?_⟩
  · constructor
    · rintro ⟨lo, hi, hm⟩
      rw [hfq, mem_solrFilters_iff] at hm
      rcases hm with ⟨_, h⟩ | ⟨_, h⟩ | ⟨hc, h⟩ | ⟨_, h⟩ | ⟨_, h⟩ | ⟨_, h⟩ <;>
        simp_all
    · intro h
      exact ⟨r.minPrice, _, by
        rw [hfq, mem_solrFilters_iff]
        exact Or.inr (Or.inr (Or.inl ⟨h, rfl⟩))⟩
  · intro lo hi hm
    rw [hfq, mem_solrFilters_iff] at hm
    rcases hm with ⟨_, h⟩ | ⟨_, h⟩ | ⟨hc, h⟩ | ⟨_, h⟩ | ⟨_, h⟩ | ⟨_, h⟩ <;>
      simp_all
  · constructor
    · rintro ⟨n, hm⟩
      rw [hfq, mem_solrFilters_iff] at hm
      rcases hm with ⟨_, h⟩ | ⟨_, h⟩ | ⟨_, h⟩ | ⟨hc, h⟩ | ⟨_, h⟩ | ⟨_, h⟩ <;>
        simp_all
    · intro h
      exact ⟨r.bedrooms, by
        rw [hfq, mem_solrFilters_iff]
        exact Or.inr (Or.inr (Or.inr (Or.inl ⟨h, rfl⟩)))⟩
  · intro n hm
    rw [hfq, mem_solrFilters_iff] at hm
    rcases hm with ⟨_, h⟩ | ⟨_, h⟩ | ⟨_, h⟩ | ⟨hc, h⟩ | ⟨_, h⟩ | ⟨_, h⟩ <;>
      simp_all
  · constructor
    · rintro ⟨n, hm⟩
      rw [hfq, mem_solrFilters_iff] at hm
      rcases hm with ⟨_, h⟩ | ⟨_, h⟩ | ⟨_, h⟩ | ⟨_, h⟩ | ⟨hc, h⟩ | ⟨_, h⟩ <;>
        simp_all
    · intro h
      exact ⟨r.bathrooms, by
        rw [hfq, mem_solrFilters_iff]
        exact Or.inr (Or.inr (Or.inr (Or.inr (Or.inl ⟨h, rfl⟩))))⟩
  · intro n hm
    rw [hfq, mem_solrFilters_iff] at hm
    rcases hm with ⟨_, h⟩ | ⟨_, h⟩ | ⟨_, h⟩ | ⟨_, h⟩ | ⟨hc, h⟩ | ⟨_, h⟩ <;>
      simp_all
  · constructor
    · rintro ⟨n, hm⟩
      rw [hfq, mem_solrFilters_iff] at hm
      rcases hm with ⟨_, h⟩ | ⟨_, h⟩ | ⟨_, h⟩ | ⟨_, h⟩ | ⟨_, h⟩ | ⟨hc, h⟩ <;>
        simp_all
    · intro h
      exact ⟨r.minGuests, by
        rw [hfq, mem_solrFilters_iff]
        exact Or.inr (Or.inr (Or.inr (Or.inr (Or.inr ⟨h, rfl⟩))))⟩
  · intro n hm
    rw [hfq, mem_solrFilters_iff] at hm
    rcases hm with ⟨_, h⟩ | ⟨_, h⟩ | ⟨_, h⟩ | ⟨_, h⟩ | ⟨_, h⟩ | ⟨hc, h⟩ <;>
      simp_all
  · show solrStart r = (max r.page 1 - 1) * r.pageSize
    unfold solrStart
    rw [effPage_eq_max]
    unfold effPageSize
    rw [if_neg (by omega)]
  · show solrRows r = r.pageSize
    unfold solrRows effPageSize
    rw [if_neg (by omega)]

/-- Witness for C8 at a concrete validated request. -/
theorem claim8_witness :
    (0 ≤ wit8req.minPrice ∧ 0 ≤ wit8req.maxPrice ∧ 1 ≤ wit8req.pageSize) ∧
    claim8Prop wit8req :=
  ⟨⟨by decide, by decide, by decide⟩,
   claim8_filters_pagination wit8req (by decide) (by decide) (by decide)⟩

/-! ## Claim C5 -/

/-- A successfully parsed request carries the controller's sort defaults:
`sortBy` falls back to `price_per_night` when the parameter is absent, and
`sortOrder` is the lowercased parameter, defaulting to `asc`. -/
theorem parseSearchRequest_ok_sort (p : RawParams) (req : SearchRequest)
    (h : parseSearchRequest p = Except.ok req) :
    req.sortBy = (if p.sortBy = "" then "price_per_night" else p.sortBy) ∧
    req.sortOrder =
      (if asciiLower p.sortOrder = "" then "asc" else asciiLower p.sortOrder) := by
  unfold parseSearchRequest at h
  repeat' split at h
  all_goals
    first
      | (have h2 := (Except.ok.injEq _ _).mp h
         subst h2
         constructor <;> simp_all)
      | exact absurd h (by simp)

/-- The effective sort order is always `asc` or `desc`. -/
theorem effSortOrder_cases (o : String) :
    effSortOrder o = "asc" ∨ effSortOrder o = "desc" := by
  simp only [effSortOrder]
  by_cases h1 : o = ""
  · simp [h1]
  · simp only [if_neg h1]
    by_cases h2 : o ≠ "asc" ∧ o ≠ "desc"
    · simp [h2]
    · rw [if_neg h2]
      rcases not_and_or.mp h2 with h3 | h3
      · exact Or.inl (not_not.mp h3)
      · exact Or.inr (not_not.mp h3)

/-- Claim C5 (amended): the translated query carries a sort parameter iff
the request's `sortBy` field is non-empty — an empty `sortBy` yields
engine-default ordering — and the emitted value is the verbatim `sortBy`
followed by an order coerced into (asc, desc); no whitelist is applied,
and the HTTP layer fills an absent `sortBy` parameter with
`price_per_night`, so every parsed request carries a non-empty
`sortBy`. -/
theorem claim5_sort_amended (r : SearchRequest) (p : RawParams)
    (req : SearchRequest) :
    ((translateSearch r).sort = none ↔ r.sortBy = "") ∧
    (r.sortBy ≠ "" →
      (translateSearch r).sort =
        some (r.sortBy ++ " " ++ effSortOrder r.sortOrder)) ∧
    (effSortOrder r.sortOrder = "asc" ∨ effSortOrder r.sortOrder = "desc") ∧
    (parseSearchRequest p = Except.ok req → req.sortBy ≠ "") := by
  refine ⟨?_, ?_, ?_, ?_⟩
  · show solrSort r = none ↔ r.sortBy = ""
    unfold solrSort
    split_ifs with h <;> simp [h]
  · intro h
    show solrSort r = _
    unfold solrSort
    rw [if_neg h]
  · exact effSortOrder_cases r.sortOrder
  · intro h
    rw [(parseSearchRequest_ok_sort p req h).1]
    split_ifs with hsb
    · decide
    · exact hsb

/-- Counterexample for C5: the verbatim `sortBy` value `foo` — outside the
documented whitelist — reaches the engine; moreover the HTTP layer turns
an unsupplied `sortBy` into `price_per_night` (itself outside the
documented whitelist), so a sort parameter is emitted even when none was
supplied. -/
theorem claim5_counterexample :
    (translateSearch cex5req).sort = some "foo asc" ∧
    "foo" ∉ permittedSortFields ∧
    parseSearchRequest noParams = Except.ok parsedDefault ∧
    (translateSearch parsedDefault).sort = some "price_per_night asc" ∧
    "price_per_night" ∉ permittedSortFields :=
  ⟨rfl, by decide, rfl, rfl, by decide⟩

/-- Witness for C5 at a concrete request sorting on `price`. -/
theorem claim5_witness :
    (wit5req.sortBy ≠ "" ∧
     (translateSearch wit5req).sort =
       some (wit5req.sortBy ++ " " ++ effSortOrder wit5req.sortOrder)) ∧
    parsedDefault.sortBy ≠ "" :=
  ⟨⟨by decide, (claim5_sort_amended wit5req noParams parsedDefault).2.1 (by decide)⟩,
   (claim5_sort_amended wit5req noParams parsedDefault).2.2.2 rfl⟩

/-! ## Claim C9 -/

/-- A request passing the controller's validator satisfies every validation
constraint. -/
theorem ctrlValidate_ok_constraints (req : SearchRequest)
    (h : ctrlValidateSearchRequest req = Except.ok ()) :
    1 ≤ req.page ∧ 1 ≤ req.pageSize ∧ req.pageSize ≤ 100 ∧
    0 ≤ req.minPrice ∧ 0 ≤ req.maxPrice ∧
    ¬(0 < req.minPrice ∧ 0 < req.maxPrice ∧ req.minPrice > req.maxPrice) ∧
    (req.sortOrder = "" ∨ req.sortOrder = "asc" ∨ req.sortOrder = "desc") := by
  unfold ctrlValidateSearchRequest at h
  split_ifs at h with h1 h2 h3 h4 h5 h6 h7
  refine ⟨by omega, by omega, by omega, not_lt.mp h4, not_lt.mp h5, h6, ?_⟩
  rcases not_and_or.mp h7 with hs | hs
  · exact Or.inl (not_not.mp hs)
  · rcases not_and_or.mp hs with hs' | hs'
    · exact Or.inr (Or.inl (not_not.mp hs'))
    · exact Or.inr (Or.inr (not_not.mp hs'))

/-- Claim C9 (amended): `GET /search` rejects invalid parameters with 400
before the index is ever queried — a forwarded request always satisfies
the validation constraints, with its sort order in (asc, desc) — and in
particular `pageSize=101`, `page=0`, `minPrice=50&maxPrice=10`,
`sortOrder=bogus` and a non-numeric `bedrooms=abc` are each answered with
400; the `sortOrder` comparison, however, happens after lowercasing, so a
value is rejected iff its lowercased form is outside (asc, desc). -/
theorem claim9_bad_request_amended :
    (∀ (p : RawParams) (req : SearchRequest),
      searchController p = ControllerOutcome.forwarded req →
      1 ≤ req.page ∧ 1 ≤ req.pageSize ∧ req.pageSize ≤ 100 ∧
      0 ≤ req.minPrice ∧ 0 ≤ req.maxPrice ∧
      ¬(0 < req.minPrice ∧ 0 < req.maxPrice ∧ req.minPrice > req.maxPrice) ∧
      (req.sortOrder = "asc" ∨ req.sortOrder = "desc")) ∧
    (∃ m, searchController { noParams with pageSize := "101" } =
      ControllerOutcome.badRequest m) ∧
    (∃ m, searchController { noParams with page := "0" } =
      ControllerOutcome.badRequest m) ∧
    (∃ m, searchController { noParams with minPrice := "50", maxPrice := "10" } =
      ControllerOutcome.badRequest m) ∧
    (∃ m, searchController { noParams with sortOrder := "bogus" } =
      ControllerOutcome.badRequest m) ∧
    (∃ m, searchController { noParams with bedrooms := "abc" } =
      ControllerOutcome.badRequest m) := by
  refine ⟨?_, ⟨_, rfl⟩, ⟨_, rfl⟩, ⟨_, rfl⟩, ⟨_, rfl⟩, ⟨_, rfl⟩⟩
  intro p req h
  unfold searchController at h
  split at h
  · exact absurd h (by simp)
  · rename_i req' hp
    split at h
    · exact absurd h (by simp)
    · rename_i u hv
      cases u
      have hreq : req' = req := (ControllerOutcome.forwarded.injEq _ _).mp h
      subst hreq
      obtain ⟨c1, c2, c3, c4, c5, c6, c7⟩ := ctrlValidate_ok_constraints req' hv
      refine ⟨c1, c2, c3, c4, c5, c6, ?_⟩
      rcases c7 with c7 | c7
      · exfalso
        have hs := (parseSearchRequest_ok_sort p req' hp).2
        rw [c7] at hs
        by_cases hlow : asciiLower p.sortOrder = ""
        · rw [if_pos hlow] at hs; exact absurd hs.symm (by decide)
        · rw [if_neg hlow] at hs; exact hlow hs.symm
      · exact c7

/-- Counterexample for C9: the parameter `sortOrder=ASC` is outside the
literal set (asc, desc), yet the controller lowercases it, validation
passes, and the request is forwarded to the service — a 200 path, not a
400. -/
theorem claim9_counterexample :
    rawASC.sortOrder = "ASC" ∧
    ("ASC" ≠ "asc" ∧ "ASC" ≠ "desc") ∧
    searchController rawASC = ControllerOutcome.forwarded parsedDefault :=
  ⟨rfl, by decide, rfl⟩

/-- Witness for C9 at the defaults-only request, which is forwarded. -/
theorem claim9_witness :
    searchController noParams = ControllerOutcome.forwarded parsedDefault ∧
    (1 ≤ parsedDefault.page ∧ 1 ≤ parsedDefault.pageSize ∧
     parsedDefault.pageSize ≤ 100 ∧ 0 ≤ parsedDefault.minPrice ∧
     0 ≤ parsedDefault.maxPrice ∧
     ¬(0 < parsedDefault.minPrice ∧ 0 < parsedDefault.maxPrice ∧
        parsedDefault.minPrice > parsedDefault.maxPrice) ∧
     (parsedDefault.sortOrder = "asc" ∨ parsedDefault.sortOrder = "desc")) :=
  ⟨rfl, claim9_bad_request_amended.1 noParams parsedDefault rfl⟩

/-! ## Claim C1 -/

set_option maxRecDepth 10000 in
/-- Claim C1 (amended): every successful index mutation calls the cache
invalidation hook, but the hook only logs — it removes nothing, so the
cache state after `IndexProperty`, `UpdateProperty` and `DeleteProperty` is
exactly the state before, on every path; in the concrete two-search
scenario a later identical search within the TTL therefore serves the
pre-mutation cached page, staleness being bounded only by the entry
TTLs. -/
theorem claim1_invalidation_is_nominal :
    (∀ (eng : SolrOp → Bool) (now : Nat) (p : Property) (st : CacheState),
      (svcIndexProperty eng now p st).2.2 = st) ∧
    (∀ (eng : SolrOp → Bool) (now : Nat) (p : Property) (st : CacheState),
      (svcUpdateProperty eng now p st).2.2 = st) ∧
    (∀ (eng : SolrOp → Bool) (pid : String) (st : CacheState),
      (svcDeleteProperty eng pid st).2.2 = st) ∧
    (∀ st, invalidateCache st = st) ∧
    (svcSearch solrAfter cacheAfterFirstSearch 10 cexReq).1 =
      Except.ok (buildSearchResponse [cexOldProp] 1 cexReq) := by
  refine ⟨?_, ?_, ?_, fun st => rfl, rfl⟩
  · intro eng now p st
    unfold svcIndexProperty
    cases validateProperty p with
    | error e => rfl
    | ok u =>
      rcases h : repoIndexProperty eng now p with ⟨res, ops⟩
      cases res <;> simp [h, invalidateCache]
  · intro eng now p st
    unfold svcUpdateProperty
    cases validateProperty p with
    | error e => rfl
    | ok u =>
      rcases h : repoUpdateProperty eng now p with ⟨res, ops⟩
      cases res <;> simp [h, invalidateCache]
  · intro eng pid st
    unfold svcDeleteProperty
    by_cases hp : pid = ""
    · simp [hp]
    · rcases h : repoDeleteProperty eng pid with ⟨res, ops⟩
      cases res <;> simp [hp, h, invalidateCache]

set_option maxRecDepth 10000 in
/-- Counterexample for C1: a concrete run in which a search caches a page,
a subsequent `IndexProperty` succeeds, yet the `search:`-prefixed entry
survives at both cache levels (the cache state is unchanged) and a later
identical search within the TTL returns the pre-mutation page, which does
not contain the newly indexed property. -/
theorem claim1_counterexample :
    (svcSearch solrBefore emptyCache 0 cexReq).1 =
      Except.ok (buildSearchResponse [cexOldProp] 1 cexReq) ∧
    (svcIndexProperty engAllOk 0 cexNewProp cacheAfterFirstSearch).1 =
      Except.ok () ∧
    (svcIndexProperty engAllOk 0 cexNewProp cacheAfterFirstSearch).2.2 =
      cacheAfterFirstSearch ∧
    (generateCacheKey cexReq).take 7 = "search:" ∧
    lookupFresh
      (svcIndexProperty engAllOk 0 cexNewProp cacheAfterFirstSearch).2.2.localEntries
      10 (generateCacheKey cexReq) ≠ none ∧
    (svcSearch solrAfter
      (svcIndexProperty engAllOk 0 cexNewProp cacheAfterFirstSearch).2.2
      10 cexReq).1 =
      Except.ok (buildSearchResponse [cexOldProp] 1 cexReq) ∧
    cexNewProp ∉ (buildSearchResponse [cexOldProp] 1 cexReq).results := by
  refine ⟨rfl, rfl, by decide, by decide, by decide, rfl, by decide⟩

/-! ## Claim C6 -/

/-- Claim C6 (evaluation at the failing input): `escapeSolrQuery` is meant
to prefix each reserved character with exactly one backslash, but because
the backslash is replaced after the seventeen characters before it in the
list, the backslashes those replacements insert are themselves re-escaped:
`+` becomes a double-backslash-plus, and only the backslash and the slash
(the last two in the list) receive exactly one backslash. -/
theorem claim6_escape_double_escapes :
    escapeSolrQuery ['+'] = ['\\', '\\', '+'] ∧
    escapeSpecClaim ['+'] = ['\\', '+'] ∧
    escapeSolrQuery ['+'] ≠ escapeSpecClaim ['+'] ∧
    escapeSolrQuery ['C', '+', '+'] = ['C', '\\', '\\', '+', '\\', '\\', '+'] ∧
    escapeSolrQuery ['\\'] = escapeSpecClaim ['\\'] ∧
    escapeSolrQuery ['/'] = escapeSpecClaim ['/'] := by decide

/-! ## Claim C7 -/

/-- Claim C7 (evaluation at the failing input): a 200 body holding a bare
`Property` object with a non-empty id unmarshals SUCCESSFULLY into the
envelope struct (all envelope fields merely absent, so `Success = false`),
hence the fetcher's direct-parse fallback is unreachable and the fetch is
rejected with the upstream-reported-error message — even though the very
same body decodes as a `Property` — while the enveloped shape with
`success: true` is accepted. -/
theorem claim7_bare_property_body_rejected :
    fetchPropertyDecode envelopeLoftBody = Except.ok loftProperty ∧
    fetchPropertyDecode bareLoftBody = Except.error "la API reportó error: " ∧
    decodeProperty bareLoftBody = Except.ok loftProperty :=
  ⟨rfl, rfl, rfl⟩

/-! ## General characterization of the escape function -/

/-- One replacement pass distributes over concatenation. -/
theorem replaceEsc_append (c : Char) (s t : List Char) :
    replaceEsc c (s ++ t) = replaceEsc c s ++ replaceEsc c t := by
  induction s with
  | nil => rfl
  | cons x xs ih => simp [replaceEsc, ih]

/-- The whole replacement pipeline distributes over concatenation. -/
theorem foldl_replaceEsc_append (cs : List Char) :
    ∀ s t : List Char,
      cs.foldl (fun acc c => replaceEsc c acc) (s ++ t) =
        cs.foldl (fun acc c => replaceEsc c acc) s ++
          cs.foldl (fun acc c => replaceEsc c acc) t := by
  induction cs with
  | nil => intro s t; rfl
  | cons c cs ih =>
    intro s t
    rw [List.foldl_cons, List.foldl_cons, List.foldl_cons,
      replaceEsc_append, ih]

/-- A character matched by no pass comes through untouched. -/
theorem foldl_replaceEsc_singleton_notmem :
    ∀ (cs : List Char) (x : Char), x ∉ cs →
      cs.foldl (fun acc c => replaceEsc c acc) [x] = [x] := by
  intro cs
  induction cs with
  | nil => intro x h; rfl
  | cons c cs ih =>
    intro x h
    rw [List.mem_cons, not_or] at h
    rw [List.foldl_cons]
    have h1 : replaceEsc c [x] = [x] := by simp [replaceEsc, h.1]
    rw [h1]
    exact ih x h.2

/-- What `escapeSolrQuery` actually computes, character by character: the
backslash and the slash (the last two entries of `specialChars`) are
prefixed by exactly one backslash, every other reserved character is
prefixed by TWO backslashes (the backslash inserted for it is itself
escaped by the later backslash pass), and all other characters pass
through untouched. -/
theorem escapeSolrQuery_charwise (q : List Char) :
    escapeSolrQuery q = q.foldr (fun x acc =>
      (if x = '\\' ∨ x = '/' then ['\\', x]
       else if x ∈ specialChars then ['\\', '\\', x] else [x]) ++ acc) [] := by
  induction q with
  | nil => rfl
  | cons x xs ih =>
    have hsplit : escapeSolrQuery (x :: xs) =
        escapeSolrQuery [x] ++ escapeSolrQuery xs := by
      show escapeSolrQuery ([x] ++ xs) = _
      unfold escapeSolrQuery
      exact foldl_replaceEsc_append specialChars [x] xs
    have hx : escapeSolrQuery [x] =
        (if x = '\\' ∨ x = '/' then ['\\', x]
         else if x ∈ specialChars then ['\\', '\\', x] else [x]) := by
      by_cases hbs : x = '\\' ∨ x = '/'
      · rw [if_pos hbs]
        rcases hbs with rfl | rfl <;> decide
      · rw [if_neg hbs]
        by_cases hmem : x ∈ specialChars
        · rw [if_pos hmem]
          rw [show specialChars =
            ['+', '-', '&', '|', '!', '(', ')', '\x7b', '\x7d', '[', ']', '^',
             '"', '~', '*', '?', ':', '\\', '/'] from rfl] at hmem
          simp only [List.mem_cons, List.not_mem_nil, or_false] at hmem
          rcases hmem with rfl | rfl | rfl | rfl | rfl | rfl | rfl | rfl | rfl |
            rfl | rfl | rfl | rfl | rfl | rfl | rfl | rfl | rfl | rfl <;>
            first
              | decide
              | (exact absurd (by decide) hbs)
        · rw [if_neg hmem]
          exact foldl_replaceEsc_singleton_notmem specialChars x hmem
    rw [List.foldr_cons, hsplit, ih, hx]
